import Mathlib

/-!
Verification of the browser image-compressor component (`src/App.jsx`).

The component keeps seven pieces of React state (original file, original
preview URL, compressed image, loading flag, error message, quality,
max width), a `compressImage` pipeline (decode, proportional resize,
rasterize, JPEG re-encode), a processing `useEffect` keyed on
(originalFile, imageQuality, imageDimensions), an upload handler that
validates the MIME type, and a download handler.

The embedding below models the host primitives explicitly: a selected
file carries the behaviour of `FileReader.readAsDataURL` on it (success
plus resulting data URL, or failure) and the behaviour of the image
decoder on its bytes (`some (w, h)` for a decodable image of intrinsic
width `w` and height `h`, `none` when the decoder rejects the bytes).
`canvas.toDataURL('image/jpeg', quality)` is modelled as a record of the
produced format, pixel dimensions and encoding quality.  JavaScript
numbers are modelled as exact arithmetic (`Nat` for pixel counts, `ℚ`
for the quality factor).  Observable host interactions (read attempts,
decode attempts, download clicks) are collected as a list of actions so
that theorems can speak about which attempts happen.
-/

/-- Result of `canvas.toDataURL('image/jpeg', quality)` after drawing the
decoded image at the computed dimensions: the encoded format, the pixel
dimensions of the canvas, and the quality factor passed to the encoder. -/
structure CompressedData where
  format : String
  width : Nat
  height : Nat
  quality : ℚ
deriving DecidableEq, Repr

/-- A file chosen in the `<input type="file">` element, together with the
behaviour of the host primitives on it: its MIME type (`file.type`),
whether `FileReader.readAsDataURL` succeeds, the data URL it produces on
success, and what the image decoder makes of the bytes (`some (w, h)`
when they decode to an image of intrinsic width `w` and height `h`,
`none` when the decoder rejects them). -/
structure SourceFile where
  mimeType : String
  readOk : Bool
  dataUrl : String
  decodesTo : Option (Nat × Nat)
deriving DecidableEq, Repr

/-- `file.type.startsWith('image/')` (line 92): the character sequence of
the MIME type begins with the characters of `"image/"`. -/
def typeStartsWithImage (ty : String) : Bool :=
  "image/".data.isPrefixOf ty.data

/-- `compressImage` (lines 12-43).  Its argument is the decoding
behaviour of the image source that `img.src` is set to: on `img.onload`
(the decoder produced a surface of intrinsic size `(w, h)`) it computes
the capped dimensions, draws, and resolves with the JPEG data URL; on
`img.onerror` it rejects with the fixed message. -/
def compressImage (decoded : Option (Nat × Nat)) (quality : ℚ) (maxWidth : Nat) :
    Except String CompressedData :=
  match decoded with
  | some img =>
    let newWidth := img.1
    let newHeight := img.2
    let resized :=
      if newWidth > maxWidth then
        (maxWidth, Nat.floor ((newHeight : ℚ) * ((maxWidth : ℚ) / (newWidth : ℚ))))
      else
        (newWidth, newHeight)
    Except.ok
      { format := "image/jpeg", width := resized.1, height := resized.2, quality := quality }
  | none => Except.error "Failed to load image for compression."

/-- The React state of the `App` component (lines 4-10). -/
structure AppState where
  originalFile : Option SourceFile
  originalImageUrl : Option String
  compressedImage : Option CompressedData
  loading : Bool
  error : Option String
  imageQuality : ℚ
  imageDimensions : Nat
deriving DecidableEq, Repr

/-- The `useState` initial values (lines 4-10): no file, no preview, no
compressed image, not loading, no error, quality `0.7`, max width `800`. -/
def initialState : AppState :=
  { originalFile := none
    originalImageUrl := none
    compressedImage := none
    loading := false
    error := none
    imageQuality := 7/10
    imageDimensions := 800 }

/-- Observable host interactions performed by the component: invoking
`FileReader.readAsDataURL` on a file, setting `img.src` to attempt a
decode, and clicking a synthesized download link with a payload and a
suggested filename. -/
inductive HostAction where
  | readFile (f : SourceFile)
  | decodeImage (url : String)
  | downloadClick (data : CompressedData) (filename : String)
deriving DecidableEq, Repr

/-- The body of the processing `useEffect` (lines 45-81), as one
big-step transition on the component state, returning the new state and
the host interactions performed.  With no file selected it clears the
derived image and the preview.  Otherwise it clears the error, sets
loading, and reads the file: on a read failure it surfaces
`"Failed to read the file."` and stops loading; on success it stores the
preview URL and awaits `compressImage`, storing the result on success
and on rejection surfacing the message and clearing the derived image,
clearing loading either way. -/
def processImage (s : AppState) : AppState × List HostAction :=
  match s.originalFile with
  | none => ({ s with compressedImage := none, originalImageUrl := none }, [])
  | some file =>
    let s1 := { s with error := none, loading := true }
    if file.readOk then
      let url := file.dataUrl
      let s2 := { s1 with originalImageUrl := some url }
      match compressImage file.decodesTo s2.imageQuality s2.imageDimensions with
      | Except.ok c =>
        ({ s2 with compressedImage := some c, loading := false },
         [HostAction.readFile file, HostAction.decodeImage url])
      | Except.error msg =>
        ({ s2 with error := some msg, compressedImage := none, loading := false },
         [HostAction.readFile file, HostAction.decodeImage url])
    else
      ({ s1 with error := some "Failed to read the file.", loading := false },
       [HostAction.readFile file])

/-- `handleImageUpload` (lines 83-101) applied to the `files` list of the
change event: with no file it surfaces `"Please select an image file."`
and clears the source file; with a file whose MIME type does not start
with `image/` it surfaces the non-image message and clears the source
file; otherwise it clears the error and stores the file. -/
def handleImageUpload (files : List SourceFile) (s : AppState) : AppState :=
  match files with
  | [] =>
    { s with error := some "Please select an image file.", originalFile := none }
  | file :: _ =>
    if typeStartsWithImage file.mimeType then
      { s with error := none, originalFile := some file }
    else
      { s with
          error := some "The selected file is not an image. Please upload an image (e.g., JPEG, PNG)."
          originalFile := none }

/-- The suggested download filename (line 108):
`compressed_image_w` + imageDimensions + `_q` + `Math.floor(imageQuality * 100)` + `.jpg`. -/
def downloadFilename (imageDimensions : Nat) (imageQuality : ℚ) : String :=
  "compressed_image_w" ++ toString imageDimensions ++ "_q"
    ++ toString (Int.floor (imageQuality * 100)) ++ ".jpg"

/-- `handleDownloadCompressed` (lines 103-113): with a compressed image
present it synthesizes and clicks a download link for it with the
suggested filename; otherwise it does nothing.  The component state is
not modified in either case. -/
def handleDownloadCompressed (s : AppState) : AppState × List HostAction :=
  match s.compressedImage with
  | some data =>
    (s, [HostAction.downloadClick data (downloadFilename s.imageDimensions s.imageQuality)])
  | none => (s, [])

/-- The dependency array of the processing `useEffect` (line 81):
`[originalFile, imageQuality, imageDimensions, compressImage]`, with the
`useCallback([])`-stable `compressImage` omitted since it never changes. -/
def effectDeps (s : AppState) : Option SourceFile × ℚ × Nat :=
  (s.originalFile, s.imageQuality, s.imageDimensions)

/-- React re-runs the effect after a state update exactly when a
dependency changed. -/
def runEffect (prev next : AppState) : AppState × List HostAction :=
  if effectDeps prev = effectDeps next then (next, []) else processImage next

/-- The user-visible events of the component: a change event on the file
input (carrying its `files` list), a change of the quality selector
(`handleQualityChange`, line 115), a change of the width selector
(`handleDimensionsChange`, line 119), and a click on the download
button. -/
inductive Event where
  | upload (files : List SourceFile)
  | setQuality (q : ℚ)
  | setDimensions (d : Nat)
  | download

/-- One event-handling step of the component: run the event's handler,
then re-run the processing effect if one of its dependencies changed. -/
def step (s : AppState) (e : Event) : AppState × List HostAction :=
  match e with
  | Event.upload files => runEffect s (handleImageUpload files s)
  | Event.setQuality q => runEffect s { s with imageQuality := q }
  | Event.setDimensions d => runEffect s { s with imageDimensions := d }
  | Event.download => handleDownloadCompressed s

/-- States reachable from the initial render by user events. -/
inductive Reachable : AppState → Prop where
  | init : Reachable initialState
  | step (s : AppState) (e : Event) : Reachable s → Reachable (step s e).1

/-- The `<option>` values of the quality selector (lines 211-220). -/
def qualityOptions : List ℚ :=
  [1, 9/10, 8/10, 7/10, 6/10, 5/10, 4/10, 3/10, 2/10, 1/10]

/-- The `<option>` values of the width selector (lines 232-236). -/
def widthOptions : List Nat :=
  [400, 800, 1200, 1600, 2000]

/-- A decodable 100×80 PNG whose read succeeds: a concrete input for
trace evaluation. -/
def fileGood : SourceFile :=
  { mimeType := "image/png"
    readOk := true
    dataUrl := "data:image/png;base64,AAAA"
    decodesTo := some (100, 80) }

/-- A file with an image MIME type whose `FileReader` read fails: a
concrete input for trace evaluation. -/
def fileUnreadable : SourceFile :=
  { mimeType := "image/png"
    readOk := false
    dataUrl := ""
    decodesTo := none }

/-- A file whose MIME type is not `image/`: a concrete input for
trace evaluation. -/
def fileText : SourceFile :=
  { mimeType := "text/plain"
    readOk := true
    dataUrl := "data:text/plain;base64,AAAA"
    decodesTo := none }

/-- A file with an image MIME type that reads fine but whose bytes the
decoder rejects: a concrete input for trace evaluation. -/
def fileCorrupt : SourceFile :=
  { mimeType := "image/jpeg"
    readOk := true
    dataUrl := "data:image/jpeg;base64,Z2FyYmFnZQ"
    decodesTo := none }

/-- State after uploading `fileGood` at the initial render. -/
def trace1 : AppState := (step initialState (Event.upload [fileGood])).1

/-- State after then uploading `fileUnreadable`, whose read fails. -/
def trace2 : AppState := (step trace1 (Event.upload [fileUnreadable])).1

/-- State after then selecting quality 50% while the unreadable file is
still the current file. -/
def trace3 : AppState := (step trace2 (Event.setQuality (1/2))).1

/-- The payload `compressImage` produces for `fileGood` at the default
parameters: a 100×80 JPEG at quality `0.7` (no downscaling, 100 ≤ 800). -/
def goodPayload : CompressedData :=
  { format := "image/jpeg", width := 100, height := 80, quality := 7/10 }

/-- The state reached by uploading `fileGood` at the initial render. -/
def state1 : AppState :=
  { originalFile := some fileGood
    originalImageUrl := some "data:image/png;base64,AAAA"
    compressedImage := some goodPayload
    loading := false
    error := none
    imageQuality := 7/10
    imageDimensions := 800 }

/-- The state reached from `state1` by uploading `fileUnreadable`: the
read failure surfaces its message but the previous compressed image is
left in place. -/
def state2 : AppState :=
  { originalFile := some fileUnreadable
    originalImageUrl := some "data:image/png;base64,AAAA"
    compressedImage := some goodPayload
    loading := false
    error := some "Failed to read the file."
    imageQuality := 7/10
    imageDimensions := 800 }

/-- The state reached from `state2` by selecting quality 50%: the effect
re-runs, the read fails again, and the stale quality-0.7 compressed
image is still in place. -/
def state3 : AppState :=
  { originalFile := some fileUnreadable
    originalImageUrl := some "data:image/png;base64,AAAA"
    compressedImage := some goodPayload
    loading := false
    error := some "Failed to read the file."
    imageQuality := 1/2
    imageDimensions := 800 }

/-- The scaled height `⌊h * (maxWidth / w)⌋` computed by `compressImage`
equals the floor of the exact quotient `h * maxWidth / w`. -/
theorem floor_scale_eq (h m w : Nat) :
    Nat.floor ((h : ℚ) * ((m : ℚ) / (w : ℚ)))
      = Nat.floor (((h * m : Nat) : ℚ) / ((w : Nat) : ℚ)) := by
  rw [show ((h : ℚ) * ((m : ℚ) / (w : ℚ))) = ((h * m : Nat) : ℚ) / ((w : Nat) : ℚ) by
    push_cast; ring]

/-- The scaled height equals natural-number division `h * m / w`. -/
theorem floor_scale_eq_div (h m w : Nat) :
    Nat.floor ((h : ℚ) * ((m : ℚ) / (w : ℚ))) = h * m / w := by
  rw [floor_scale_eq]
  exact Nat.floor_div_eq_div (h * m) w

/-- `compressImage` on a decodable image wider than `maxWidth`. -/
theorem compressImage_of_gt (w h maxWidth : Nat) (q : ℚ) (hgt : maxWidth < w) :
    compressImage (some (w, h)) q maxWidth =
      Except.ok
        { format := "image/jpeg", width := maxWidth, height := h * maxWidth / w, quality := q } := by
  simp [compressImage, hgt, floor_scale_eq_div]

/-- `compressImage` on a decodable image no wider than `maxWidth`. -/
theorem compressImage_of_le (w h maxWidth : Nat) (q : ℚ) (hle : w ≤ maxWidth) :
    compressImage (some (w, h)) q maxWidth =
      Except.ok { format := "image/jpeg", width := w, height := h, quality := q } := by
  simp [compressImage, Nat.not_lt.mpr hle]

/-- The processing effect never changes which file is selected. -/
theorem processImage_fst_originalFile (s : AppState) :
    (processImage s).1.originalFile = s.originalFile := by
  rcases hof : s.originalFile with _ | file
  · simp [processImage, hof]
  · rcases hr : file.readOk
    · simp [processImage, hof, hr]
    · rcases hc : compressImage file.decodesTo s.imageQuality s.imageDimensions with c | msg <;>
        simp [processImage, hof, hr, hc]

/-- The processing effect with no file selected. -/
theorem processImage_of_none (s : AppState) (hof : s.originalFile = none) :
    processImage s = ({ s with compressedImage := none, originalImageUrl := none }, []) := by
  simp [processImage, hof]

/-- The processing effect when reading the selected file fails. -/
theorem processImage_of_readFail (s : AppState) (file : SourceFile)
    (hof : s.originalFile = some file) (hr : file.readOk = false) :
    processImage s =
      ({ s with error := some "Failed to read the file.", loading := false },
       [HostAction.readFile file]) := by
  simp [processImage, hof, hr]

/-- The processing effect when the read succeeds and the decode succeeds. -/
theorem processImage_of_decodeOk (s : AppState) (file : SourceFile) (c : CompressedData)
    (hof : s.originalFile = some file) (hr : file.readOk = true)
    (hc : compressImage file.decodesTo s.imageQuality s.imageDimensions = Except.ok c) :
    processImage s =
      ({ s with error := none, originalImageUrl := some file.dataUrl,
                compressedImage := some c, loading := false },
       [HostAction.readFile file, HostAction.decodeImage file.dataUrl]) := by
  simp [processImage, hof, hr, hc]

/-- The processing effect when the read succeeds but the decode fails. -/
theorem processImage_of_decodeErr (s : AppState) (file : SourceFile) (msg : String)
    (hof : s.originalFile = some file) (hr : file.readOk = true)
    (hc : compressImage file.decodesTo s.imageQuality s.imageDimensions = Except.error msg) :
    processImage s =
      ({ s with error := some msg, originalImageUrl := some file.dataUrl,
                compressedImage := none, loading := false },
       [HostAction.readFile file, HostAction.decodeImage file.dataUrl]) := by
  simp [processImage, hof, hr, hc]

/-- The upload handler on an empty selection. -/
theorem handleImageUpload_nil (s : AppState) :
    handleImageUpload [] s =
      { s with error := some "Please select an image file.", originalFile := none } := rfl

/-- The upload handler on a file with an `image/` MIME type. -/
theorem handleImageUpload_image (f : SourceFile) (rest : List SourceFile) (s : AppState)
    (hf : typeStartsWithImage f.mimeType = true) :
    handleImageUpload (f :: rest) s = { s with error := none, originalFile := some f } := by
  simp [handleImageUpload, hf]

/-- The upload handler on a file whose MIME type is not `image/`. -/
theorem handleImageUpload_nonImage (f : SourceFile) (rest : List SourceFile) (s : AppState)
    (hf : typeStartsWithImage f.mimeType = false) :
    handleImageUpload (f :: rest) s =
      { s with
          error := some "The selected file is not an image. Please upload an image (e.g., JPEG, PNG)."
          originalFile := none } := by
  simp [handleImageUpload, hf]

/-- The effect is skipped when no dependency changed. -/
theorem runEffect_of_eq (prev next : AppState) (h : effectDeps prev = effectDeps next) :
    runEffect prev next = (next, []) := by
  simp [runEffect, h]

/-- The effect re-runs when a dependency changed. -/
theorem runEffect_of_ne (prev next : AppState) (h : effectDeps prev ≠ effectDeps next) :
    runEffect prev next = processImage next := by
  simp [runEffect, h]

theorem trace1_eq : trace1 = state1 := by
  have hup : handleImageUpload [fileGood] initialState
      = { initialState with error := none, originalFile := some fileGood } :=
    handleImageUpload_image _ _ _ (by decide)
  have hne : effectDeps initialState
      ≠ effectDeps { initialState with error := none, originalFile := some fileGood } := by
    simp [effectDeps, initialState]
  have hc : compressImage fileGood.decodesTo (7/10 : ℚ) 800 = Except.ok goodPayload :=
    compressImage_of_le 100 80 800 (7/10) (by norm_num)
  show (runEffect initialState (handleImageUpload [fileGood] initialState)).1 = state1
  rw [hup, runEffect_of_ne _ _ hne, processImage_of_decodeOk _ fileGood goodPayload rfl rfl hc]
  rfl

theorem trace2_eq : trace2 = state2 := by
  have hup : handleImageUpload [fileUnreadable] state1
      = { state1 with error := none, originalFile := some fileUnreadable } :=
    handleImageUpload_image _ _ _ (by decide)
  have hne : effectDeps state1
      ≠ effectDeps { state1 with error := none, originalFile := some fileUnreadable } := by
    simp [effectDeps, state1, fileGood, fileUnreadable]
  show (step trace1 (Event.upload [fileUnreadable])).1 = state2
  rw [trace1_eq]
  show (runEffect state1 (handleImageUpload [fileUnreadable] state1)).1 = state2
  rw [hup, runEffect_of_ne _ _ hne, processImage_of_readFail _ fileUnreadable rfl rfl]
  rfl

theorem trace3_eq : trace3 = state3 := by
  have hne : effectDeps state2 ≠ effectDeps { state2 with imageQuality := 1/2 } := by
    norm_num [effectDeps, state2]
  show (step trace2 (Event.setQuality (1/2))).1 = state3
  rw [trace2_eq]
  show (runEffect state2 { state2 with imageQuality := 1/2 }).1 = state3
  rw [runEffect_of_ne _ _ hne, processImage_of_readFail _ fileUnreadable rfl rfl]
  rfl

/-- The upload handler never changes the compressed image. -/
theorem handleImageUpload_compressedImage (files : List SourceFile) (s : AppState) :
    (handleImageUpload files s).compressedImage = s.compressedImage := by
  rcases files with _ | ⟨f, rest⟩
  · rfl
  · by_cases hf : typeStartsWithImage f.mimeType <;> simp [handleImageUpload, hf]

/-- The upload handler never changes the preview URL. -/
theorem handleImageUpload_originalImageUrl (files : List SourceFile) (s : AppState) :
    (handleImageUpload files s).originalImageUrl = s.originalImageUrl := by
  rcases files with _ | ⟨f, rest⟩
  · rfl
  · by_cases hf : typeStartsWithImage f.mimeType <;> simp [handleImageUpload, hf]

/-- Reachable states satisfy: no selected file means no derived image
and no preview. -/
theorem reachable_no_file_inv (s : AppState) (hs : Reachable s) :
    s.originalFile = none → s.compressedImage = none ∧ s.originalImageUrl = none := by
  induction hs with
  | init => intro _; exact ⟨rfl, rfl⟩
  | step s e _ ih =>
    cases e with
    | download =>
      have hd : (step s Event.download).1 = s := by
        rcases hc : s.compressedImage with _ | c <;> simp [step, handleDownloadCompressed, hc]
      rw [hd]; exact ih
    | setQuality q =>
      by_cases h : effectDeps s = effectDeps { s with imageQuality := q }
      · rw [show (step s (Event.setQuality q)).1 = { s with imageQuality := q } by
          simp [step, runEffect_of_eq _ _ h]]
        intro hof
        exact ih hof
      · rw [show (step s (Event.setQuality q)).1 = (processImage { s with imageQuality := q }).1 by
          simp [step, runEffect_of_ne _ _ h]]
        intro hof
        have hof' : ({ s with imageQuality := q } : AppState).originalFile = none := by
          rw [← processImage_fst_originalFile]; exact hof
        rw [processImage_of_none _ hof']
        exact ⟨rfl, rfl⟩
    | setDimensions d =>
      by_cases h : effectDeps s = effectDeps { s with imageDimensions := d }
      · rw [show (step s (Event.setDimensions d)).1 = { s with imageDimensions := d } by
          simp [step, runEffect_of_eq _ _ h]]
        intro hof
        exact ih hof
      · rw [show (step s (Event.setDimensions d)).1
            = (processImage { s with imageDimensions := d }).1 by
          simp [step, runEffect_of_ne _ _ h]]
        intro hof
        have hof' : ({ s with imageDimensions := d } : AppState).originalFile = none := by
          rw [← processImage_fst_originalFile]; exact hof
        rw [processImage_of_none _ hof']
        exact ⟨rfl, rfl⟩
    | upload files =>
      by_cases h : effectDeps s = effectDeps (handleImageUpload files s)
      · rw [show (step s (Event.upload files)).1 = handleImageUpload files s by
          simp [step, runEffect_of_eq _ _ h]]
        intro hof
        have hsof : s.originalFile = none := by
          have h1 : s.originalFile = (handleImageUpload files s).originalFile :=
            congrArg Prod.fst h
          rw [h1, hof]
        obtain ⟨h1, h2⟩ := ih hsof
        rw [handleImageUpload_compressedImage, handleImageUpload_originalImageUrl]
        exact ⟨h1, h2⟩
      · rw [show (step s (Event.upload files)).1 = (processImage (handleImageUpload files s)).1 by
          simp [step, runEffect_of_ne _ _ h]]
        intro hof
        have hof' : (handleImageUpload files s).originalFile = none := by
          rw [← processImage_fst_originalFile]; exact hof
        rw [processImage_of_none _ hof']
        exact ⟨rfl, rfl⟩

/-- An upload whose handler clears the selected file and sets an error
message: the message and the cleared file survive the effect, and no
read or decode is attempted. -/
theorem runEffect_cleared_base (s : AppState) (e : Option String) :
    (runEffect s { s with error := e, originalFile := none }).1.error = e ∧
    (runEffect s { s with error := e, originalFile := none }).1.originalFile = none ∧
    (runEffect s { s with error := e, originalFile := none }).2 = [] := by
  by_cases hd : effectDeps s = effectDeps { s with error := e, originalFile := none }
  · rw [runEffect_of_eq _ _ hd]
    exact ⟨rfl, rfl, rfl⟩
  · rw [runEffect_of_ne _ _ hd, processImage_of_none _ rfl]
    exact ⟨rfl, rfl, rfl⟩

/-- An upload whose handler clears the selected file, in a state where
no selected file implies no derived image and no preview: afterwards the
preview and the derived image are empty. -/
theorem runEffect_cleared_empty (s : AppState) (e : Option String)
    (hinv : s.originalFile = none → s.compressedImage = none ∧ s.originalImageUrl = none) :
    (runEffect s { s with error := e, originalFile := none }).1.originalImageUrl = none ∧
    (runEffect s { s with error := e, originalFile := none }).1.compressedImage = none := by
  by_cases hd : effectDeps s = effectDeps { s with error := e, originalFile := none }
  · rw [runEffect_of_eq _ _ hd]
    have hsof : s.originalFile = none := congrArg Prod.fst hd
    obtain ⟨h1, h2⟩ := hinv hsof
    exact ⟨h2, h1⟩
  · rw [runEffect_of_ne _ _ hd, processImage_of_none _ rfl]
    exact ⟨rfl, rfl⟩

/-- Uploading a fresh file with an `image/` MIME type re-runs the
processing effect on it. -/
theorem upload_newFile_step (s : AppState) (f : SourceFile)
    (hm : typeStartsWithImage f.mimeType = true) (hnew : s.originalFile ≠ some f) :
    step s (Event.upload [f]) = processImage { s with error := none, originalFile := some f } := by
  rw [show step s (Event.upload [f]) = runEffect s (handleImageUpload [f] s) from rfl,
      handleImageUpload_image f [] s hm]
  exact runEffect_of_ne _ _ (fun hd => hnew (congrArg Prod.fst hd))

/-- `compressImage` always succeeds on a decodable image, producing a
JPEG at the requested quality. -/
theorem compressImage_isOk (w h : Nat) (q : ℚ) (m : Nat) :
    ∃ c : CompressedData, compressImage (some (w, h)) q m = Except.ok c ∧
      c.format = "image/jpeg" ∧ c.quality = q := by
  rcases lt_or_le m w with hgt | hle
  · exact ⟨_, compressImage_of_gt w h m q hgt, rfl, rfl⟩
  · exact ⟨_, compressImage_of_le w h m q hle, rfl, rfl⟩

/-- Every quality option is a whole number of percent: `q * 100` is a
natural number and flooring it loses nothing. -/
theorem qualityOptions_floor (q : ℚ) (hq : q ∈ qualityOptions) :
    ∃ n : Nat, (q * 100 : ℚ) = (n : ℚ) ∧ Int.floor (q * 100) = (n : ℤ) := by
  simp only [qualityOptions, List.mem_cons, List.not_mem_nil, or_false] at hq
  rcases hq with h | h | h | h | h | h | h | h | h | h <;> subst h
  · exact ⟨100, by norm_num, by norm_num⟩
  · exact ⟨90, by norm_num, by norm_num⟩
  · exact ⟨80, by norm_num, by norm_num⟩
  · exact ⟨70, by norm_num, by norm_num⟩
  · exact ⟨60, by norm_num, by norm_num⟩
  · exact ⟨50, by norm_num, by norm_num⟩
  · exact ⟨40, by norm_num, by norm_num⟩
  · exact ⟨30, by norm_num, by norm_num⟩
  · exact ⟨20, by norm_num, by norm_num⟩
  · exact ⟨10, by norm_num, by norm_num⟩

/-- C1: For every decodable source image with intrinsic width `w` and
height `h` and every `maxWidth` with `w > maxWidth`, the pipeline
(`compressImage`) produces a derived image of width exactly `maxWidth`
and height exactly `floor(h * maxWidth / w)`. -/
theorem C1_downscale_dimensions (w h maxWidth : Nat) (q : ℚ) (hgt : maxWidth < w) :
    compressImage (some (w, h)) q maxWidth =
      Except.ok
        { format := "image/jpeg", width := maxWidth
          height := Nat.floor (((h * maxWidth : Nat) : ℚ) / ((w : Nat) : ℚ)), quality := q } := by
  rw [compressImage_of_gt w h maxWidth q hgt, Nat.floor_div_eq_div]

/-- Witness for C1 at the spec scenario: a 1600×1200 image with
`maxWidth = 800` becomes 800×600. -/
theorem C1_downscale_dimensions_witness :
    800 < 1600 ∧
      compressImage (some (1600, 1200)) (7/10) 800 =
        Except.ok { format := "image/jpeg", width := 800, height := 600, quality := 7/10 } := by
  constructor
  · norm_num
  · rw [C1_downscale_dimensions 1600 1200 800 (7/10) (by norm_num), Nat.floor_div_eq_div]

/-- C2: For every decodable source image with intrinsic width
`w ≤ maxWidth`, the pipeline (`compressImage`) leaves the dimensions
unchanged: derived width `w` and derived height `h` (no upscaling). -/
theorem C2_no_upscale (w h maxWidth : Nat) (q : ℚ) (hle : w ≤ maxWidth) :
    compressImage (some (w, h)) q maxWidth =
      Except.ok { format := "image/jpeg", width := w, height := h, quality := q } :=
  compressImage_of_le w h maxWidth q hle

/-- Witness for C2 at the spec scenario: a 300×200 image with
`maxWidth = 800` is unchanged. -/
theorem C2_no_upscale_witness :
    300 ≤ 800 ∧
      compressImage (some (300, 200)) (7/10) 800 =
        Except.ok { format := "image/jpeg", width := 300, height := 200, quality := 7/10 } :=
  ⟨by norm_num, C2_no_upscale 300 200 800 (7/10) (by norm_num)⟩

/-- C3: For every decodable source image (positive intrinsic width) and
every positive `maxWidth`, the derived width is at most `maxWidth` and
the derived height is exactly the integer rounding (floor) of the source
height scaled by the derived over the source width, i.e. the aspect
ratio is preserved up to the integer rounding of the scaled height. -/
theorem C3_width_capped_aspect_preserved (w h maxWidth : Nat) (q : ℚ)
    (_hmw : 0 < maxWidth) (hw : 0 < w) :
    ∃ c : CompressedData, compressImage (some (w, h)) q maxWidth = Except.ok c ∧
      c.width ≤ maxWidth ∧
      c.height = Nat.floor (((h * c.width : Nat) : ℚ) / ((w : Nat) : ℚ)) := by
  rcases lt_or_le maxWidth w with hgt | hle
  · refine ⟨_, compressImage_of_gt w h maxWidth q hgt, Nat.le_refl _, ?_⟩
    rw [Nat.floor_div_eq_div]
  · refine ⟨_, compressImage_of_le w h maxWidth q hle, hle, ?_⟩
    rw [Nat.floor_div_eq_div, Nat.mul_div_cancel h hw]

/-- Witness for C3 at a 1600×1200 image and `maxWidth = 800`. -/
theorem C3_width_capped_aspect_preserved_witness :
    0 < 800 ∧ 0 < 1600 ∧
      ∃ c : CompressedData, compressImage (some (1600, 1200)) (7/10) 800 = Except.ok c ∧
        c.width ≤ 800 ∧
        c.height = Nat.floor (((1200 * c.width : Nat) : ℚ) / ((1600 : Nat) : ℚ)) :=
  ⟨by norm_num, by norm_num,
    C3_width_capped_aspect_preserved 1600 1200 800 (7/10) (by norm_num) (by norm_num)⟩

/-- C4 counterexample: after a successful compression, uploading a file
with an image MIME type whose read fails surfaces the `FileReadError`
message but leaves the previous derived image in place — the derived
image state is not reset to empty on that error kind. -/
theorem C4_read_error_keeps_derived_counterexample :
    trace2.error = some "Failed to read the file." ∧ trace2.compressedImage ≠ none := by
  rw [trace2_eq]
  refine ⟨rfl, ?_⟩
  simp [state2]

/-- C4 (amended): a `NotAnImage` error and a `DecodeError` reset the
derived image to empty as part of handling the error, and no error is
retried (a non-image upload performs no read and no decode; a decode
error performs exactly one read and one decode attempt; a read error
performs exactly one read attempt); a `FileReadError`, however, only
surfaces its message and stops loading, leaving the previous derived
image in place. -/
theorem C4_error_handling_amended (s : AppState) (hs : Reachable s)
    (f g r : SourceFile)
    (hf : typeStartsWithImage f.mimeType = false)
    (hgm : typeStartsWithImage g.mimeType = true) (hgr : g.readOk = true)
    (hgd : g.decodesTo = none) (hgnew : s.originalFile ≠ some g)
    (hrm : typeStartsWithImage r.mimeType = true) (hrr : r.readOk = false)
    (hrnew : s.originalFile ≠ some r) :
    ((step s (Event.upload [f])).1.compressedImage = none ∧
      (step s (Event.upload [f])).2 = []) ∧
    ((step s (Event.upload [g])).1.error = some "Failed to load image for compression." ∧
      (step s (Event.upload [g])).1.compressedImage = none ∧
      (step s (Event.upload [g])).2 = [HostAction.readFile g, HostAction.decodeImage g.dataUrl]) ∧
    ((step s (Event.upload [r])).1.error = some "Failed to read the file." ∧
      (step s (Event.upload [r])).1.loading = false ∧
      (step s (Event.upload [r])).1.compressedImage = s.compressedImage ∧
      (step s (Event.upload [r])).2 = [HostAction.readFile r]) := by
  refine ⟨⟨?_, ?_⟩, ?_, ?_⟩
  · rw [show step s (Event.upload [f]) = runEffect s (handleImageUpload [f] s) from rfl,
        handleImageUpload_nonImage f [] s hf]
    exact (runEffect_cleared_empty s _ (reachable_no_file_inv s hs)).2
  · rw [show step s (Event.upload [f]) = runEffect s (handleImageUpload [f] s) from rfl,
        handleImageUpload_nonImage f [] s hf]
    exact (runEffect_cleared_base s _).2.2
  · rw [upload_newFile_step s g hgm hgnew,
        processImage_of_decodeErr _ g "Failed to load image for compression." rfl hgr
          (by rw [hgd]; rfl)]
    exact ⟨rfl, rfl, rfl⟩
  · rw [upload_newFile_step s r hrm hrnew, processImage_of_readFail _ r rfl hrr]
    exact ⟨rfl, rfl, rfl, rfl⟩

/-- Witness for C4 (amended) at the initial state with `fileText`
(non-image), `fileCorrupt` (decode failure) and `fileUnreadable` (read
failure). -/
theorem C4_error_handling_amended_witness :
    typeStartsWithImage fileText.mimeType = false ∧
    typeStartsWithImage fileCorrupt.mimeType = true ∧
    fileCorrupt.readOk = true ∧ fileCorrupt.decodesTo = none ∧
    initialState.originalFile ≠ some fileCorrupt ∧
    typeStartsWithImage fileUnreadable.mimeType = true ∧
    fileUnreadable.readOk = false ∧
    initialState.originalFile ≠ some fileUnreadable ∧
    (((step initialState (Event.upload [fileText])).1.compressedImage = none ∧
       (step initialState (Event.upload [fileText])).2 = []) ∧
     ((step initialState (Event.upload [fileCorrupt])).1.error
          = some "Failed to load image for compression." ∧
       (step initialState (Event.upload [fileCorrupt])).1.compressedImage = none ∧
       (step initialState (Event.upload [fileCorrupt])).2
          = [HostAction.readFile fileCorrupt, HostAction.decodeImage fileCorrupt.dataUrl]) ∧
     ((step initialState (Event.upload [fileUnreadable])).1.error
          = some "Failed to read the file." ∧
       (step initialState (Event.upload [fileUnreadable])).1.loading = false ∧
       (step initialState (Event.upload [fileUnreadable])).1.compressedImage
          = initialState.compressedImage ∧
       (step initialState (Event.upload [fileUnreadable])).2
          = [HostAction.readFile fileUnreadable])) :=
  ⟨by decide, by decide, rfl, rfl, by simp [initialState], by decide, rfl,
    by simp [initialState],
    C4_error_handling_amended initialState Reachable.init fileText fileCorrupt fileUnreadable
      (by decide) (by decide) rfl rfl (by simp [initialState]) (by decide) rfl
      (by simp [initialState])⟩

/-- C5: For every input with an `image/` MIME type whose bytes the
decoder rejects, the pipeline fails with a decode error (`compressImage`
rejects), the error is surfaced as a message, and the derived image
state is set to empty. -/
theorem C5_decode_error_surfaced (s : AppState) (g : SourceFile)
    (hgm : typeStartsWithImage g.mimeType = true) (hgr : g.readOk = true)
    (hgd : g.decodesTo = none) (hgnew : s.originalFile ≠ some g) :
    compressImage g.decodesTo s.imageQuality s.imageDimensions
        = Except.error "Failed to load image for compression." ∧
    (step s (Event.upload [g])).1.error = some "Failed to load image for compression." ∧
    (step s (Event.upload [g])).1.compressedImage = none := by
  refine ⟨by rw [hgd]; rfl, ?_, ?_⟩ <;>
    rw [upload_newFile_step s g hgm hgnew,
        processImage_of_decodeErr _ g "Failed to load image for compression." rfl hgr
          (by rw [hgd]; rfl)]

/-- Witness for C5 at the initial state with `fileCorrupt`. -/
theorem C5_decode_error_surfaced_witness :
    typeStartsWithImage fileCorrupt.mimeType = true ∧
    fileCorrupt.readOk = true ∧ fileCorrupt.decodesTo = none ∧
    initialState.originalFile ≠ some fileCorrupt ∧
    (compressImage fileCorrupt.decodesTo initialState.imageQuality initialState.imageDimensions
        = Except.error "Failed to load image for compression." ∧
     (step initialState (Event.upload [fileCorrupt])).1.error
        = some "Failed to load image for compression." ∧
     (step initialState (Event.upload [fileCorrupt])).1.compressedImage = none) :=
  ⟨by decide, rfl, rfl, by simp [initialState],
    C5_decode_error_surfaced initialState fileCorrupt (by decide) rfl rfl
      (by simp [initialState])⟩

/-- C6: For every selected file whose MIME type does not start with
`image/`, an error message is surfaced and the pipeline is never
invoked: no file read and no decode attempt occurs. -/
theorem C6_non_image_rejected (s : AppState) (f : SourceFile)
    (hf : typeStartsWithImage f.mimeType = false) :
    (step s (Event.upload [f])).1.error
        = some "The selected file is not an image. Please upload an image (e.g., JPEG, PNG)." ∧
    (step s (Event.upload [f])).1.originalFile = none ∧
    (step s (Event.upload [f])).2 = [] := by
  rw [show step s (Event.upload [f]) = runEffect s (handleImageUpload [f] s) from rfl,
      handleImageUpload_nonImage f [] s hf]
  exact runEffect_cleared_base s _

/-- Witness for C6 at the initial state with `fileText`. -/
theorem C6_non_image_rejected_witness :
    typeStartsWithImage fileText.mimeType = false ∧
    ((step initialState (Event.upload [fileText])).1.error
        = some "The selected file is not an image. Please upload an image (e.g., JPEG, PNG)." ∧
     (step initialState (Event.upload [fileText])).1.originalFile = none ∧
     (step initialState (Event.upload [fileText])).2 = []) :=
  ⟨by decide, C6_non_image_rejected initialState fileText (by decide)⟩

/-- C7 counterexample: upload a good image (compressed at the selected
quality 0.7), then a file whose read fails, then select quality 50%.
The re-run read fails again, so the derived image kept from the first
upload (encoded at quality 0.7) is still downloadable; the download
names it with the new quality (q50) although its content was encoded at
quality 0.7 — the downloaded content is not encoded at the selected
quality. -/
theorem C7_stale_quality_counterexample :
    ∃ c : CompressedData,
      trace3.compressedImage = some c ∧
      (step trace3 Event.download).2
        = [HostAction.downloadClick c
            (downloadFilename trace3.imageDimensions trace3.imageQuality)] ∧
      trace3.imageQuality = 1/2 ∧
      downloadFilename trace3.imageDimensions trace3.imageQuality
        = "compressed_image_w" ++ toString (800 : Nat) ++ "_q"
            ++ toString (50 : ℤ) ++ ".jpg" ∧
      c.quality = 7/10 ∧
      c.quality ≠ trace3.imageQuality := by
  refine ⟨goodPayload, ?_, ?_, ?_, ?_, rfl, ?_⟩
  · rw [trace3_eq]
    rfl
  · rw [trace3_eq]
    rfl
  · rw [trace3_eq]
    rfl
  · rw [trace3_eq]
    show downloadFilename 800 (1/2) = _
    simp only [downloadFilename]
    norm_num
  · rw [trace3_eq]
    show (7/10 : ℚ) ≠ 1/2
    norm_num

/-- C7 (amended): immediately after a successful compression, the
download emits exactly one click whose payload is a JPEG encoded at the
currently selected quality, under the suggested name
`compressed_image_w` + maxWidth + `_q` + floor(quality*100) + `.jpg`;
for every quality offered by the UI, `floor(quality*100)` equals
`quality*100` exactly.  (After a failed read, a previously derived image
encoded at an older quality may persist and be downloaded under the new
parameters' name, so the claim holds as stated only for the parameters
in effect when the derived image was produced.) -/
theorem C7_download_name_content_amended (s : AppState) (f : SourceFile) (w h : Nat)
    (hm : typeStartsWithImage f.mimeType = true) (hr : f.readOk = true)
    (hd : f.decodesTo = some (w, h)) (hnew : s.originalFile ≠ some f) :
    ∃ c : CompressedData,
      (step s (Event.upload [f])).1.compressedImage = some c ∧
      (step (step s (Event.upload [f])).1 Event.download).2
        = [HostAction.downloadClick c (downloadFilename s.imageDimensions s.imageQuality)] ∧
      c.format = "image/jpeg" ∧
      c.quality = s.imageQuality ∧
      downloadFilename s.imageDimensions s.imageQuality
        = "compressed_image_w" ++ toString s.imageDimensions ++ "_q"
            ++ toString (Int.floor (s.imageQuality * 100)) ++ ".jpg" ∧
      (s.imageQuality ∈ qualityOptions →
        ∃ n : Nat, (s.imageQuality * 100 : ℚ) = (n : ℚ)
          ∧ Int.floor (s.imageQuality * 100) = (n : ℤ)) := by
  obtain ⟨c, hc, hfmt, hq⟩ := compressImage_isOk w h s.imageQuality s.imageDimensions
  have hc' : compressImage f.decodesTo s.imageQuality s.imageDimensions = Except.ok c := by
    rw [hd]; exact hc
  rw [upload_newFile_step s f hm hnew,
      processImage_of_decodeOk { s with error := none, originalFile := some f } f c rfl hr hc']
  exact ⟨c, rfl, rfl, hfmt, hq, rfl, fun hqo => qualityOptions_floor _ hqo⟩

/-- Witness for C7 (amended) at the initial state with `fileGood`. -/
theorem C7_download_name_content_amended_witness :
    typeStartsWithImage fileGood.mimeType = true ∧ fileGood.readOk = true ∧
    fileGood.decodesTo = some (100, 80) ∧ initialState.originalFile ≠ some fileGood ∧
    (∃ c : CompressedData,
      (step initialState (Event.upload [fileGood])).1.compressedImage = some c ∧
      (step (step initialState (Event.upload [fileGood])).1 Event.download).2
        = [HostAction.downloadClick c
            (downloadFilename initialState.imageDimensions initialState.imageQuality)] ∧
      c.format = "image/jpeg" ∧
      c.quality = initialState.imageQuality ∧
      downloadFilename initialState.imageDimensions initialState.imageQuality
        = "compressed_image_w" ++ toString initialState.imageDimensions ++ "_q"
            ++ toString (Int.floor (initialState.imageQuality * 100)) ++ ".jpg" ∧
      (initialState.imageQuality ∈ qualityOptions →
        ∃ n : Nat, (initialState.imageQuality * 100 : ℚ) = (n : ℚ)
          ∧ Int.floor (initialState.imageQuality * 100) = (n : ℤ))) :=
  ⟨by decide, rfl, rfl, by simp [initialState],
    C7_download_name_content_amended initialState fileGood 100 80 (by decide) rfl rfl
      (by simp [initialState])⟩

/-- C8: the quality selector offers exactly the options 100%..10% in
steps of 10 (as fractions, `q * 100` enumerates 100,90,...,10) with
`0.7` as the initial default, and the width selector offers exactly
400, 800, 1200, 1600, 2000 px with `800` as the initial default. -/
theorem C8_controls_options_defaults :
    qualityOptions.map (fun q => q * 100) = [100, 90, 80, 70, 60, 50, 40, 30, 20, 10] ∧
    initialState.imageQuality = 7/10 ∧
    initialState.imageQuality ∈ qualityOptions ∧
    widthOptions = [400, 800, 1200, 1600, 2000] ∧
    initialState.imageDimensions = 800 ∧
    initialState.imageDimensions ∈ widthOptions := by
  refine ⟨?_, rfl, ?_, rfl, rfl, ?_⟩
  · norm_num [qualityOptions]
  · norm_num [qualityOptions, initialState]
  · decide

/-- C9: an upload change event with an empty file list surfaces
`"Please select an image file."`, clears the source file, and the
processing effect leaves both the original preview and the derived
image empty, performing no read and no decode. -/
theorem C9_empty_selection_resets (s : AppState) (hs : Reachable s) :
    (step s (Event.upload [])).1.error = some "Please select an image file." ∧
    (step s (Event.upload [])).1.originalFile = none ∧
    (step s (Event.upload [])).1.originalImageUrl = none ∧
    (step s (Event.upload [])).1.compressedImage = none ∧
    (step s (Event.upload [])).2 = [] := by
  have hb := runEffect_cleared_base s (some "Please select an image file.")
  have he := runEffect_cleared_empty s (some "Please select an image file.")
      (reachable_no_file_inv s hs)
  rw [show step s (Event.upload []) = runEffect s (handleImageUpload [] s) from rfl,
      handleImageUpload_nil s]
  exact ⟨hb.1, hb.2.1, he.1, he.2, hb.2.2⟩

/-- Witness for C9 at the initial state. -/
theorem C9_empty_selection_resets_witness :
    Reachable initialState ∧
    ((step initialState (Event.upload [])).1.error = some "Please select an image file." ∧
     (step initialState (Event.upload [])).1.originalFile = none ∧
     (step initialState (Event.upload [])).1.originalImageUrl = none ∧
     (step initialState (Event.upload [])).1.compressedImage = none ∧
     (step initialState (Event.upload [])).2 = []) :=
  ⟨Reachable.init, C9_empty_selection_resets initialState Reachable.init⟩

/-- C10: when no compressed image exists, the download handler is a
no-op: no link is created or clicked and the state (every field) is
unchanged. -/
theorem C10_download_noop (s : AppState) (h : s.compressedImage = none) :
    step s Event.download = (s, []) := by
  show handleDownloadCompressed s = (s, [])
  simp [handleDownloadCompressed, h]

/-- Witness for C10 at the initial state. -/
theorem C10_download_noop_witness :
    initialState.compressedImage = none ∧
      step initialState Event.download = (initialState, []) :=
  ⟨rfl, C10_download_noop initialState rfl⟩
